import Mathlib

/-!
Verification development for the ShellHacks2025 accessibility browser
extension.  The JavaScript of `extension/js/content-script.js`, the tab-page
tool classes (`extension/js/tools/*.js` and the unnamed shared/tab files) is
shallowly embedded below: pure string and list manipulation is translated
function-for-function, DOM mutation is made explicit as record updates on
state structures, platform primitives (`JSON.parse`, `btoa`/`atob`,
`querySelector` id lookup, timers, `fetch`) are modelled by executable Lean
definitions that follow their standard platform semantics.

All definitions come first, then the theorems.
-/

/-! ## Small string helpers (JavaScript string primitives)

JavaScript `String.prototype.includes`, `replace` with a one-character
pattern (which replaces only the first occurrence), and the
`replace(/\b\w/g, uppercase)` idiom used in the content script. -/

/-- Whitespace test used by the regex class `\s` (space, tab, newline,
carriage return, form feed). -/
def isWsChar (c : Char) : Bool :=
  c = ' ' || c = '\t' || c = '\n' || c = '\r' || c = '\x0c'

/-- JavaScript `s.includes(sub)` : substring containment. -/
def strIncludes (s sub : String) : Bool :=
  s.toList.tails.any (fun t => sub.toList.isPrefixOf t)

/-- Helper for `replaceFirstChar`, on character lists. -/
def replaceFirstCharAux (a b : Char) : List Char → List Char
  | [] => []
  | c :: rest => if c = a then b :: rest else c :: replaceFirstCharAux a b rest

/-- JavaScript `s.replace(a, b)` for one-character `a` and `b`: replaces only
the first occurrence. -/
def replaceFirstChar (s : String) (a b : Char) : String :=
  String.mk (replaceFirstCharAux a b s.toList)

/-- JavaScript `s.toLowerCase()` (ASCII), on the character list so that it
evaluates inside the kernel. -/
def strLower (s : String) : String :=
  String.mk (s.toList.map Char.toLower)

/-- JavaScript `s.trim()`: strip leading and trailing whitespace. -/
def strTrim (s : String) : String :=
  String.mk (((s.toList.dropWhile isWsChar).reverse.dropWhile isWsChar).reverse)

/-- JavaScript `s.startsWith(pre)`. -/
def strStartsWith (s pre : String) : Bool :=
  pre.toList.isPrefixOf s.toList

/-- JavaScript `s.substring(n)` / drop the first `n` characters. -/
def strDrop (s : String) (n : Nat) : String :=
  String.mk (s.toList.drop n)

/-- Word character, regex class `\w`. -/
def isWordChar (c : Char) : Bool := c.isAlphanum || c = '_'

/-- Helper for `capitalizeWords`; `prev` is the previous character. -/
def capWordsAux : Char → List Char → List Char
  | _, [] => []
  | prev, c :: rest =>
    (if isWordChar c && !isWordChar prev then c.toUpper else c) :: capWordsAux c rest

/-- JavaScript `s.replace(/\b\w/g, l => l.toUpperCase())` : upper-cases the
first word character of every word. -/
def capitalizeWords (s : String) : String :=
  String.mk (capWordsAux ' ' s.toList)

/-! ## A tiny matcher for the fixed regular expressions of
`isSystemActionMessage`

The sixteen patterns of `SpeechToInstructionsTool.isSystemActionMessage` use
only literal text, `\d+`, `\s+`, an optional single character (`s?`), a
two-way alternation and the `^` anchor, always with the `i` flag.  They are
compiled here to token lists matched against the lower-cased text.  The
greedy, non-backtracking matcher below is equivalent to the regex engine on
these patterns because each `\d+`/`\s+`/`s?` token is never followed by a
token that could also match its characters. -/

/-- One token of a compiled pattern. -/
inductive Tok where
  | lit (s : String)
  | ws
  | digits
  | opt (c : Char)

/-- Drop `p` as a prefix of `cs`, or fail. -/
def dropPrefixChars : List Char → List Char → Option (List Char)
  | [], cs => some cs
  | _ :: _, [] => none
  | p :: ps, c :: cs => if c = p then dropPrefixChars ps cs else none

/-- Match a token list at the start of `cs`. -/
def matchToks : List Tok → List Char → Bool
  | [], _ => true
  | Tok.lit s :: ts, cs =>
    match dropPrefixChars s.toList cs with
    | some rest => matchToks ts rest
    | none => false
  | Tok.ws :: ts, cs =>
    if cs.takeWhile isWsChar = [] then false
    else matchToks ts (cs.dropWhile isWsChar)
  | Tok.digits :: ts, cs =>
    if cs.takeWhile Char.isDigit = [] then false
    else matchToks ts (cs.dropWhile Char.isDigit)
  | Tok.opt c :: ts, cs =>
    match cs with
    | c2 :: rest => if c2 = c then matchToks ts rest else matchToks ts (c2 :: rest)
    | [] => matchToks ts []

/-- Match a token list anywhere in `cs` (unanchored search). -/
def searchToks (ts : List Tok) (cs : List Char) : Bool :=
  cs.tails.any (matchToks ts)

/-! ## JSON values and `JSON.parse`

`Json` models the values produced by the platform `JSON.parse`.  The parser
below is a recursive-descent parser over the character list, driven by a
fuel counter for termination.  It covers the JSON subset exercised by the
extension: strings with the common escapes (`\uXXXX` escapes and fractional
or exponent numbers are rejected), integers, literals, arrays and objects.
All messages the content script recognises fall inside this subset. -/

/-- JSON values. -/
inductive Json where
  | null
  | bool (b : Bool)
  | num (n : Int)
  | str (s : String)
  | arr (elems : List Json)
  | obj (fields : List (String × Json))

/-- Decode a JSON string escape character. -/
def escChar (e : Char) : Option Char :=
  if e = 'n' then some '\n'
  else if e = 't' then some '\t'
  else if e = 'r' then some '\r'
  else if e = 'b' then some '\x08'
  else if e = 'f' then some '\x0c'
  else if e = '"' then some '"'
  else if e = '\\' then some '\\'
  else if e = '/' then some '/'
  else none

/-- Parse the characters of a JSON string after the opening quote; returns
the decoded characters and the remaining input. -/
def parseStrChars : Nat → List Char → Option (List Char × List Char)
  | 0, _ => none
  | _ + 1, [] => none
  | f + 1, c :: rest =>
    if c = '"' then some ([], rest)
    else if c = '\\' then
      match rest with
      | [] => none
      | e :: rest2 =>
        match escChar e with
        | some ec => (parseStrChars f rest2).map (fun p => (ec :: p.1, p.2))
        | none => none
    else (parseStrChars f rest).map (fun p => (c :: p.1, p.2))

/-- Skip JSON whitespace. -/
def skipWs (cs : List Char) : List Char := cs.dropWhile isWsChar

/-- Digits of a nonnegative integer to its value. -/
def digitsToNat (ds : List Char) : Nat :=
  ds.foldl (fun acc c => acc * 10 + (c.toNat - 48)) 0

/-- Parse a JSON integer (optional minus sign, digits; fractional and
exponent forms are outside the modelled subset and are rejected). -/
def parseIntLit (cs : List Char) : Option (Int × List Char) :=
  let (neg, cs1) := match cs with
    | '-' :: rest => (true, rest)
    | _ => (false, cs)
  let ds := cs1.takeWhile Char.isDigit
  let rest := cs1.dropWhile Char.isDigit
  if ds = [] then none
  else match rest with
    | '.' :: _ => none
    | 'e' :: _ => none
    | 'E' :: _ => none
    | _ =>
      let v : Int := Int.ofNat (digitsToNat ds)
      some (if neg then -v else v, rest)

mutual

/-- Parse one JSON value; fuel-driven recursion. -/
def parseVal : Nat → List Char → Option (Json × List Char)
  | 0, _ => none
  | f + 1, cs =>
    match skipWs cs with
    | [] => none
    | '"' :: rest =>
      (parseStrChars (rest.length + 1) rest).map
        (fun p => (Json.str (String.mk p.1), p.2))
    | '{' :: rest =>
      (match skipWs rest with
       | '}' :: rest2 => some (Json.obj [], rest2)
       | other => parseMembers f other [])
    | '[' :: rest =>
      (match skipWs rest with
       | ']' :: rest2 => some (Json.arr [], rest2)
       | other => parseItems f other [])
    | 't' :: 'r' :: 'u' :: 'e' :: rest => some (Json.bool true, rest)
    | 'f' :: 'a' :: 'l' :: 's' :: 'e' :: rest => some (Json.bool false, rest)
    | 'n' :: 'u' :: 'l' :: 'l' :: rest => some (Json.null, rest)
    | other => (parseIntLit other).map (fun p => (Json.num p.1, p.2))

/-- Parse the members of a JSON object after `{` (nonempty case). -/
def parseMembers : Nat → List Char → List (String × Json) →
    Option (Json × List Char)
  | 0, _, _ => none
  | f + 1, cs, acc =>
    match skipWs cs with
    | '"' :: rest =>
      match parseStrChars (rest.length + 1) rest with
      | none => none
      | some (key, r1) =>
        match skipWs r1 with
        | ':' :: r2 =>
          match parseVal f r2 with
          | none => none
          | some (v, r3) =>
            match skipWs r3 with
            | ',' :: r4 => parseMembers f r4 (acc ++ [(String.mk key, v)])
            | '}' :: r4 => some (Json.obj (acc ++ [(String.mk key, v)]), r4)
            | _ => none
        | _ => none
    | _ => none

/-- Parse the items of a JSON array after `[` (nonempty case). -/
def parseItems : Nat → List Char → List Json → Option (Json × List Char)
  | 0, _, _ => none
  | f + 1, cs, acc =>
    match parseVal f cs with
    | none => none
    | some (v, r1) =>
      match skipWs r1 with
      | ',' :: r2 => parseItems f r2 (acc ++ [v])
      | ']' :: r2 => some (Json.arr (acc ++ [v]), r2)
      | _ => none

end

/-- Platform `JSON.parse` on the modelled subset: `none` means the parse
throws a `SyntaxError`. -/
def jsonParse (s : String) : Option Json :=
  match parseVal (s.length + 1) s.toList with
  | some (v, rest) => if skipWs rest = [] then some v else none
  | none => none

/-- JavaScript property read `j.k` on a parsed JSON value, `none` meaning
`undefined`.  Reading a property of `null` throws; callers model that case
explicitly before using this function. -/
def jsGetField : Json → String → Option Json
  | Json.obj fs, k => (fs.find? (fun p => p.1 == k)).map (fun p => p.2)
  | _, _ => none

/-- JavaScript truthiness of a possibly-`undefined` value. -/
def jsTruthy : Option Json → Bool
  | none => false
  | some Json.null => false
  | some (Json.bool b) => b
  | some (Json.num n) => n ≠ 0
  | some (Json.str s) => s ≠ ""
  | some (Json.arr _) => true
  | some (Json.obj _) => true

/-! ## Base64 (`arrayBufferToBase64` / `base64ToArray`)

`SpeechToInstructionsTool.arrayBufferToBase64` builds a binary string with
`String.fromCharCode` over the bytes and calls `window.btoa`;
`base64ToArray` calls `window.atob` and reads the bytes back with
`charCodeAt`.  The composition of the repository code with the platform
codec is therefore RFC 4648 base64 over the byte values, modelled here
directly on byte lists (bytes as natural numbers below 256). -/

/-- The base64 alphabet. -/
def b64chars : List Char :=
  "ABCDEFGHIJKLMNOPQRSTUVWXYZabcdefghijklmnopqrstuvwxyz0123456789+/".toList

/-- Sextet to base64 character. -/
def b64tbl (n : Nat) : Char := b64chars.getD n 'A'

/-- Base64 character to sextet (the scan `atob` performs). -/
def b64dec (c : Char) : Nat := b64chars.indexOf c

/-- Base64 encoding of a byte list, as performed by
`window.btoa(String.fromCharCode(...bytes))`. -/
def encodeB64 : List Nat → List Char
  | [] => []
  | [a] => [b64tbl (a / 4), b64tbl (a % 4 * 16), '=', '=']
  | [a, b] => [b64tbl (a / 4), b64tbl (a % 4 * 16 + b / 16), b64tbl (b % 16 * 4), '=']
  | a :: b :: c :: rest =>
    b64tbl (a / 4) :: b64tbl (a % 4 * 16 + b / 16) ::
    b64tbl (b % 16 * 4 + c / 64) :: b64tbl (c % 64) :: encodeB64 rest

/-- Base64 decoding to a byte list, as performed by `window.atob` followed
by per-character `charCodeAt`. -/
def decodeB64 : List Char → List Nat
  | c0 :: c1 :: c2 :: c3 :: rest =>
    let s0 := b64dec c0
    let s1 := b64dec c1
    if c2 = '=' then [s0 * 4 + s1 / 16]
    else
      let s2 := b64dec c2
      if c3 = '=' then [s0 * 4 + s1 / 16, s1 % 16 * 16 + s2 / 4]
      else
        (s0 * 4 + s1 / 16) :: (s1 % 16 * 16 + s2 / 4) ::
        (s2 % 4 * 64 + b64dec c3) :: decodeB64 rest
  | _ => []

/-- `SpeechToInstructionsTool.arrayBufferToBase64`: bytes of the buffer to a
base64 string. -/
def arrayBufferToBase64 (buffer : List Nat) : String :=
  String.mk (encodeB64 buffer)

/-- `SpeechToInstructionsTool.base64ToArray`: base64 string back to the
byte buffer. -/
def base64ToArray (s : String) : List Nat :=
  decodeB64 s.toList

/-! ## The webpage document and `scanWebpageElements`

A page element carries the fields the content script reads: tag name
(lower case), trimmed-or-raw text content, id, whether it has an `onclick`
handler, and the in-viewport visibility bit that the collection loop of
`scanWebpageElements` computes from `getBoundingClientRect`.  The
DOM-walking collection phase (CSS selector matching, computed-style
visibility, geometry) is modelled by the input list itself: one record per
collected candidate, in collection order, with its computed `visible`
flag. -/

/-- One collected page element. -/
structure PageElem where
  tag : String
  text : String
  id : String
  hasOnclick : Bool
  visible : Bool
deriving DecidableEq, Repr

/-- The dedup key `` `${element.tagName}-${element.text}-${element.id}` ``. -/
def candKey (e : PageElem) : String :=
  e.tag ++ "-" ++ e.text ++ "-" ++ e.id

/-- First pass of `scanWebpageElements`: append the visible elements whose
key has not been seen.  `seen` and `uniq` are the accumulated set and
output, in push order. -/
def scanPass1 : List PageElem → List String → List PageElem →
    List PageElem × List String
  | [], seen, uniq => (uniq, seen)
  | e :: rest, seen, uniq =>
    if e.visible && !seen.contains (candKey e) then
      scanPass1 rest (seen ++ [candKey e]) (uniq ++ [e])
    else scanPass1 rest seen uniq

/-- Second pass: append unseen non-visible elements while fewer than 30
elements are collected. -/
def scanPass2 : List PageElem → List String → List PageElem →
    List PageElem × List String
  | [], seen, uniq => (uniq, seen)
  | e :: rest, seen, uniq =>
    if !e.visible && !seen.contains (candKey e) && uniq.length < 30 then
      scanPass2 rest (seen ++ [candKey e]) (uniq ++ [e])
    else scanPass2 rest seen uniq

/-- Result record of `scanWebpageElements`. -/
structure ScanResult where
  action : String
  elements : List PageElem
  totalFound : Nat
  message : String
deriving DecidableEq, Repr

/-- `SpeechToInstructionsTool.scanWebpageElements`: deduplicate the
collected candidates (visible ones first), cap at 30, and report the
pre-dedup count as `totalFound`. -/
def scanWebpageElements (doc : List PageElem) : ScanResult :=
  let p1 := scanPass1 doc [] []
  let p2 := scanPass2 doc p1.2 p1.1
  let limited := p2.1.take 30
  { action := "webpage_scan_complete",
    elements := limited,
    totalFound := doc.length,
    message := "Found " ++ toString limited.length ++
      " clickable elements on the page" }

/-! ## Speech-commands tool state

The state of the inline `SpeechToInstructionsTool` instance together with
the observable effects of a step: chat messages appended to
`#chat-messages`, system messages, clicked page elements, `fetch` posts to
the backend (`outbox`), scheduled timers, audio signals, and a pending
exception (`err`) that the `onmessage` wrapper catches and logs.  The
JavaScript mutations before a throw persist, so a step returns the mutated
state together with the error. -/

/-- One chat message element (`mid` is the DOM id, when one was set). -/
structure ChatMsg where
  mid : Option String
  sender : String
  text : String
deriving DecidableEq, Repr

/-- One `fetch` POST to `http://localhost:8000/send/{session_id}`. -/
inductive SentItem where
  | scanResults (elems : List PageElem)
  | textMsg (s : String)
deriving DecidableEq, Repr

/-- State and effect log of the speech-commands tool. -/
structure SpeechState where
  currentMessageId : Option String
  messageBuffer : String
  processingButton : Bool
  chat : List ChatMsg
  system : List (String × String)
  outbox : List SentItem
  clicks : List PageElem
  sched : List (Nat × String)
  audioPlayer : Bool
  audioOut : List String
  audioEnds : Nat
  err : Option String
deriving DecidableEq, Repr

/-- `addSystemMessage(text, type)`: appends a centered status bubble. -/
def addSystemMessage (st : SpeechState) (text typ : String) : SpeechState :=
  { st with system := st.system ++ [(text, typ)] }

/-- `addChatMessage(text, sender, id)`: appends a chat bubble; the DOM id is
set only when `id` is truthy. -/
def addChatMessage (st : SpeechState) (text sender : String)
    (idOpt : Option String) : SpeechState :=
  { st with chat := st.chat ++ [{ mid := idOpt, sender := sender, text := text }] }

/-- A string is usable in a `#id` CSS selector: `document.querySelector`
throws a `SyntaxError` when the id is empty or (over the alphanumeric
alphabet the extension generates and receives) starts with a digit. -/
def validIdSel (s : String) : Bool :=
  match s.toList with
  | [] => false
  | c :: _ => !c.isDigit

/-- Generic button text/id patterns of the third matching stage of
`handleButtonAction`. -/
def genericButtonMatch (b : PageElem) : Bool :=
  let t := strTrim (strLower b.text)
  let i := strLower b.id
  strIncludes t "click me" || strIncludes t "click" || strIncludes t "test" ||
  strIncludes t "button" || strIncludes t "submit" || strIncludes t "cancel" ||
  strIncludes t "login" || strIncludes t "save" || strIncludes t "delete" ||
  strIncludes t "welcome" || strIncludes t "success" ||
  strIncludes i "click" || strIncludes i "test" || strIncludes i "button" ||
  strIncludes i "submit" || strIncludes i "cancel" || strIncludes i "login" ||
  strIncludes i "save" || strIncludes i "delete" || strIncludes i "welcome" ||
  strIncludes i "success" || b.hasOnclick

/-- The description derived from an elementId of the form
`button-<description>`: drop the prefix, replace the first hyphen by a
space, lower-case. -/
def targetDescriptionOf (eid : String) : String :=
  if strStartsWith eid "button-" then
    strLower (replaceFirstChar (strDrop eid 7) '-' ' ')
  else ""

/-- The element search of `SpeechToInstructionsTool.handleButtonAction` for
a string `elementId` that is a usable id selector: lookup by id, then the
description-derived button search, then the generic-pattern search, then
the first button of the document. -/
def buttonTargetOf (eid : String) (doc : List PageElem) : Option PageElem :=
  let byId : Option PageElem :=
    if eid ≠ "" then doc.find? (fun e => e.id == eid) else none
  match byId with
  | some e => some e
  | none =>
    let buttons : List PageElem := doc.filter (fun e => e.tag == "button")
    let desc := targetDescriptionOf eid
    let m1 : Option PageElem :=
      if desc ≠ "" then
        buttons.find? (fun b =>
          strIncludes (strTrim (strLower b.text)) desc ||
            strIncludes (strLower b.id) desc)
      else none
    match m1 with
    | some b => some b
    | none =>
      match buttons.find? genericButtonMatch with
      | some b => some b
      | none => doc.find? (fun e => e.tag == "button")

/-- `SpeechToInstructionsTool.handleButtonAction` for a string `elementId`.
Returns the updated state and a pending exception: the initial
`document.querySelector('#' + elementId)` throws a `SyntaxError` when the
id is not a valid CSS id selector, before any other effect.  Otherwise the
element chosen by `buttonTargetOf` is clicked and announced in the chat,
or the `No button found on webpage` system message is shown. -/
def handleButtonActionE (eid : String) (doc : List PageElem)
    (st : SpeechState) : SpeechState × Option String :=
  if eid ≠ "" && !validIdSel eid then
    (st, some "SyntaxError: invalid selector")
  else
    match buttonTargetOf eid doc with
    | some e =>
      let buttonName :=
        if strTrim e.text ≠ "" then strTrim e.text
        else if strStartsWith eid "button-" then
          capitalizeWords (replaceFirstChar (strDrop eid 7) '-' ' ')
        else "button"
      ({ st with
          clicks := st.clicks ++ [e],
          chat := st.chat ++ [{ mid := none, sender := "agent",
                                text := "I clicked the \"" ++ buttonName ++ "\" button." }] },
       none)
    | none => (addSystemMessage st "No button found on webpage" "error", none)

/-- The target order stated by the specification claim: (1) the document
element whose id equals `elementId`; (2) a button whose text or id contains
the description derived from an elementId of the form
`button-<description>`; (3) a button matching a generic pattern or having
an onclick handler; (4) the first button of the document. -/
def claimTargetOrder (eid : String) (doc : List PageElem) : Option PageElem :=
  match doc.find? (fun e => e.id == eid) with
  | some e => some e
  | none =>
    let buttons := doc.filter (fun e => e.tag == "button")
    let desc := targetDescriptionOf eid
    match
      (if desc ≠ "" then
        buttons.find? (fun b =>
          strIncludes (strTrim (strLower b.text)) desc ||
            strIncludes (strLower b.id) desc)
      else none) with
    | some e => some e
    | none =>
      match buttons.find? genericButtonMatch with
      | some e => some e
      | none => buttons.head?

/-- Dispatch of `handleButtonAction(data)` from the JSON recognisers: the
element id field is rendered into the selector template.  A non-string
truthy `elementId` (number, boolean, object) makes the call throw — a
numeric id renders to a digit-leading selector, and the later
`data.elementId.startsWith` call is a TypeError on non-strings — which the
surrounding catch absorbs.  (The exotic success path of a page that has an
element with id `"true"` and nonempty text is not reachable from the
recognisers modelled here and is folded into the throwing case.) -/
def dispatchButtonAction (idField : Option Json) (doc : List PageElem)
    (st : SpeechState) : SpeechState × Option String :=
  match idField with
  | some (Json.str eid) => handleButtonActionE eid doc st
  | _ => (st, some "TypeError: non-string elementId")

/-- `isSystemActionMessage(text)`: the sixteen case-insensitive patterns,
tested in source order against the text. -/
def isSystemActionMessage (text : String) : Bool :=
  let l := (strLower text).toList
  matchToks [Tok.digits, Tok.ws, Tok.lit "button", Tok.opt 's', Tok.ws, Tok.lit "found"] l ||
  matchToks [Tok.digits, Tok.ws, Tok.lit "element", Tok.opt 's', Tok.ws, Tok.lit "found"] l ||
  matchToks [Tok.digits, Tok.ws, Tok.lit "button", Tok.opt 's', Tok.ws, Tok.lit "available"] l ||
  matchToks [Tok.digits, Tok.ws, Tok.lit "element", Tok.opt 's', Tok.ws, Tok.lit "available"] l ||
  searchToks [Tok.lit "scanning"] l ||
  searchToks [Tok.lit "connected"] l ||
  searchToks [Tok.lit "disconnected"] l ||
  searchToks [Tok.lit "error"] l ||
  searchToks [Tok.lit "loading"] l ||
  searchToks [Tok.lit "processing"] l ||
  searchToks [Tok.lit "found", Tok.ws, Tok.digits] l ||
  searchToks [Tok.lit "element", Tok.opt 's', Tok.ws, Tok.lit "found"] l ||
  searchToks [Tok.lit "button", Tok.opt 's', Tok.ws, Tok.lit "found"] l ||
  searchToks [Tok.lit "scan", Tok.ws, Tok.lit "complete"] l ||
  searchToks [Tok.lit "ready"] l ||
  searchToks [Tok.lit "starting"] l ||
  searchToks [Tok.lit "stopping"] l

/-- Effects of the `scan_webpage` action branch: run the scan, show the
`n elements found` system message, send the results to the agent. -/
def doScanAction (doc : List PageElem) (st : SpeechState) : SpeechState :=
  let sr := scanWebpageElements doc
  let st1 := addSystemMessage st (toString sr.elements.length ++ " elements found") "info"
  { st1 with outbox := st1.outbox ++ [SentItem.scanResults sr.elements] }

/-- The brace-scanning loop of `tryParseJSONActions`.  `buf` is the message
buffer at entry (the buffer is only reassigned on returns, never during the
scan), `i` the index, `bc` the running brace count, `si` the start index of
the current candidate object.  On a complete candidate the loop mirrors the
source order of checks — `scan_webpage`, direct button action, nested
`result` button action — each protected by the enclosing `try`: a throwing
`handleButtonAction` is caught, leaving its mutations (notably
`processingButton = true`) in place, and scanning continues. -/
def tryParseLoop (doc : List PageElem) (buf : List Char) :
    Nat → Nat → Int → Option Nat → SpeechState → SpeechState × Bool
  | 0, _, _, _, st => (st, false)
  | fuel + 1, i, bc, si, st =>
    if i < buf.length then
      let c := buf.getD i ' '
      if c = '{' then
        tryParseLoop doc buf fuel (i + 1) (bc + 1) (some (si.getD i)) st
      else if c = '}' then
        if bc - 1 = 0 then
          match si with
          | none => tryParseLoop doc buf fuel (i + 1) (bc - 1) none st
          | some s =>
            let jsonStr := String.mk ((buf.drop s).take (i + 1 - s))
            match jsonParse jsonStr with
            | none => tryParseLoop doc buf fuel (i + 1) (bc - 1) none st
            | some Json.null => tryParseLoop doc buf fuel (i + 1) (bc - 1) none st
            | some data =>
              if (match jsGetField data "action" with
                  | some (Json.str s2) => s2 == "scan_webpage"
                  | _ => false) then
                ({ doScanAction doc st with
                     messageBuffer := String.mk (buf.drop (i + 1)) }, true)
              else if jsTruthy (jsGetField data "elementId") &&
                  (match jsGetField data "event" with
                  | some (Json.str sev) => sev == "click"
                  | _ => false) &&
                  !st.processingButton then
                let st1 := { st with processingButton := true }
                let r := dispatchButtonAction (jsGetField data "elementId") doc st1
                match r.2 with
                | some _ => tryParseLoop doc buf fuel (i + 1) (bc - 1) none r.1
                | none =>
                  ({ r.1 with
                      messageBuffer := String.mk (buf.drop (i + 1)),
                      sched := r.1.sched ++ [(1000, "resetProcessingButton")] }, true)
              else if (match jsGetField data "result" with
                  | some (Json.str s2) => s2 ≠ ""
                  | _ => false) && !st.processingButton then
                match jsGetField data "result" with
                | some (Json.str s2) =>
                  (match jsonParse s2 with
                   | some inner =>
                     if inner matches Json.null then
                       tryParseLoop doc buf fuel (i + 1) (bc - 1) none st
                     else if jsTruthy (jsGetField inner "elementId") &&
                         (match jsGetField inner "event" with
                  | some (Json.str sev) => sev == "click"
                  | _ => false) then
                       let st1 := { st with processingButton := true }
                       let r := dispatchButtonAction (jsGetField inner "elementId") doc st1
                       match r.2 with
                       | some _ => tryParseLoop doc buf fuel (i + 1) (bc - 1) none r.1
                       | none =>
                         ({ r.1 with
                             messageBuffer := String.mk (buf.drop (i + 1)),
                             sched := r.1.sched ++ [(1000, "resetProcessingButton")] }, true)
                     else tryParseLoop doc buf fuel (i + 1) (bc - 1) none st
                   | none => tryParseLoop doc buf fuel (i + 1) (bc - 1) none st)
                | _ => tryParseLoop doc buf fuel (i + 1) (bc - 1) none st
              else tryParseLoop doc buf fuel (i + 1) (bc - 1) none st
        else tryParseLoop doc buf fuel (i + 1) (bc - 1) si st
      else tryParseLoop doc buf fuel (i + 1) bc si st
    else (st, false)

/-- `SpeechToInstructionsTool.tryParseJSONActions`. -/
def tryParseJSONActions (doc : List PageElem) (st : SpeechState) :
    SpeechState × Bool :=
  tryParseLoop doc st.messageBuffer.toList (st.messageBuffer.toList.length + 1)
    0 0 none st

/-- `SpeechToInstructionsTool.isDirectJSONAction(text)`: parse the trimmed
chunk itself and check, in source order, the nested `result` action, the
direct button action, and the `scan_webpage` action.  The whole body runs
in a `try`, so a throwing branch returns `false` with its mutations kept;
the nested branch has its own inner `try`, so a failure there falls through
to the direct check. -/
def isDirectJSONAction (doc : List PageElem) (st : SpeechState)
    (text : String) : SpeechState × Bool :=
  match jsonParse text with
  | none => (st, false)
  | some Json.null => (st, false)
  | some data =>
    let nested :=
      if (match jsGetField data "result" with
          | some (Json.str s2) => s2 ≠ ""
          | _ => false) && !st.processingButton then
        match jsGetField data "result" with
        | some (Json.str s2) =>
          (match jsonParse s2 with
           | some inner =>
             if inner matches Json.null then (st, false)
             else if jsTruthy (jsGetField inner "elementId") &&
                 (match jsGetField inner "event" with
                  | some (Json.str sev) => sev == "click"
                  | _ => false) then
               let st1 := { st with processingButton := true }
               let r := dispatchButtonAction (jsGetField inner "elementId") doc st1
               match r.2 with
               | some _ => (r.1, false)
               | none =>
                 ({ r.1 with sched := r.1.sched ++ [(1000, "resetProcessingButton")] },
                  true)
             else (st, false)
           | none => (st, false))
        | _ => (st, false)
      else (st, false)
    if nested.2 then nested
    else
      let st2 := nested.1
      if jsTruthy (jsGetField data "elementId") &&
          (match jsGetField data "event" with
                  | some (Json.str sev) => sev == "click"
                  | _ => false) &&
          !st2.processingButton then
        let st3 := { st2 with processingButton := true }
        let r := dispatchButtonAction (jsGetField data "elementId") doc st3
        match r.2 with
        | some _ => (r.1, false)
        | none =>
          ({ r.1 with sched := r.1.sched ++ [(1000, "resetProcessingButton")] }, true)
      else if (match jsGetField data "action" with
                  | some (Json.str s2) => s2 == "scan_webpage"
                  | _ => false) then
        (doScanAction doc st2, true)
      else (st2, false)

/-- Append `dta` to the text of the first chat message whose id is `cid`
(the `textDiv.textContent += message.data` update). -/
def appendToFirst (l : List ChatMsg) (cid : String) (dta : String) : List ChatMsg :=
  match l with
  | [] => []
  | m :: rest =>
    if m.mid == some cid then { m with text := m.text ++ dta } :: rest
    else m :: appendToFirst rest cid dta

/-- Whether some chat message has DOM id `cid`. -/
def chatHasId (l : List ChatMsg) (cid : String) : Bool :=
  l.any (fun m => m.mid == some cid)

/-- One parsed SSE message (field truthiness already applied). -/
structure SpeechMsg where
  turn_complete : Bool
  interrupted : Bool
  mime_type : Option String
  data : String
deriving DecidableEq, Repr

/-- `SpeechToInstructionsTool.handleSSEMessage`.  `newId` is the value of
`Math.random().toString(36).substring(7)` drawn when a new chat element is
created.  The element lookup `container.querySelector('#' + id)` throws a
`SyntaxError` for an id that is not a valid CSS id selector; the throw is
caught by the `onmessage` wrapper, so the state keeps the mutations made
before it and records the error. -/
def handleSSEMessage (msg : SpeechMsg) (newId : String) (doc : List PageElem)
    (st : SpeechState) : SpeechState :=
  if msg.turn_complete then
    { st with currentMessageId := none, messageBuffer := "" }
  else if msg.interrupted then
    (if st.audioPlayer then { st with audioEnds := st.audioEnds + 1 } else st)
  else
    let st0 :=
      if msg.mime_type = some "audio/pcm" ∧ st.audioPlayer = true then
        { st with audioOut := st.audioOut ++ [msg.data] }
      else st
    if msg.mime_type = some "text/plain" then
      let stApp := { st0 with messageBuffer := st0.messageBuffer ++ msg.data }
      let r1 := tryParseJSONActions doc stApp
      if r1.2 then r1.1
      else
        let text := strTrim msg.data
        let r2 := isDirectJSONAction doc r1.1 text
        if r2.2 then r2.1
        else if isSystemActionMessage text then addSystemMessage r2.1 text "info"
        else
          let st3 :=
            if r2.1.currentMessageId = none then
              addChatMessage { r2.1 with currentMessageId := some newId } ""
                "agent" (if newId = "" then none else some newId)
            else r2.1
          let cid := st3.currentMessageId.getD ""
          if !validIdSel cid then
            { st3 with err := some "SyntaxError: invalid selector" }
          else if chatHasId st3.chat cid then
            { st3 with chat := appendToFirst st3.chat cid msg.data }
          else addChatMessage st3 msg.data "agent" none
    else st0

/-! ## SSE connection management (speech tool) and reconnects -/

/-- An `EventSource` object, by its request URL. -/
structure EventSrc where
  url : String
deriving DecidableEq, Repr

/-- Connection-related state of the speech tool: session id, audio-mode
flag, the current `EventSource`, the sources on which `close()` was called,
and the three DOM fields `toggleMode` rewrites. -/
structure SpeechConn where
  sessionId : String
  isAudioMode : Bool
  eventSource : Option EventSrc
  closedSources : List EventSrc
  textModeDisplay : String
  audioModeDisplay : String
  toggleBtnText : String
deriving DecidableEq, Repr

/-- The SSE URL of `SpeechToInstructionsTool.connectSSE`. -/
def speechSseUrl (sessionId : String) (isAudio : Bool) : String :=
  "http://localhost:8000/events/" ++ sessionId ++ "?is_audio=" ++
    (if isAudio then "true" else "false")

/-- `SpeechToInstructionsTool.connectSSE`: open an `EventSource` on the
events endpoint for the current session and audio mode. -/
def connectSSE (st : SpeechConn) : SpeechConn :=
  { st with eventSource := some { url := speechSseUrl st.sessionId st.isAudioMode } }

/-- `SpeechToInstructionsTool.toggleMode`: flip the audio-mode flag, swap
the input areas, close the existing `EventSource` if any, reconnect. -/
def toggleMode (st : SpeechConn) : SpeechConn :=
  let st1 := { st with isAudioMode := !st.isAudioMode }
  let st2 :=
    if st1.isAudioMode then
      { st1 with
          textModeDisplay := "none",
          audioModeDisplay := "block",
          toggleBtnText := "Switch to Text Mode" }
    else
      { st1 with
          textModeDisplay := "block",
          audioModeDisplay := "none",
          toggleBtnText := "Switch to Audio Mode" }
  let st3 :=
    match st2.eventSource with
    | some c => { st2 with closedSources := st2.closedSources ++ [c] }
    | none => st2
  connectSSE st3

/-- A task scheduled by `setTimeout` in an SSE error handler. -/
inductive SseTask where
  | reconnect
deriving DecidableEq, Repr

/-- The `onerror` handler installed by the speech tool's `connectSSE`: show
the connection-lost system message and schedule one `connectSSE` call after
5000 ms. -/
def speechOnError (st : SpeechState) : SpeechState × List (Nat × SseTask) :=
  (addSystemMessage st "Connection lost, reconnecting..." "error",
   [(5000, SseTask.reconnect)])

/-! ## Semantic-search tool (the parts the claims touch) -/

/-- State of the inline `WebsiteSearchTool`: message reconstruction fields
and the status pill. -/
structure SearchState where
  currentMessageId : Option String
  messageBuffer : String
  chat : List ChatMsg
  status : String
  statusType : String
deriving DecidableEq, Repr

/-- `WebsiteSearchTool.updateStatus`. -/
def updateStatus (st : SearchState) (message typ : String) : SearchState :=
  { st with status := message, statusType := typ }

/-- The SSE URL of `WebsiteSearchTool.connectSSE`. -/
def searchSseUrl (sessionId : String) : String :=
  "http://localhost:8000/search/events/" ++ sessionId

/-- The `onerror` handler installed by the search tool's `connectSSE`. -/
def searchOnError (st : SearchState) : SearchState × List (Nat × SseTask) :=
  (updateStatus st "Connection lost, reconnecting..." "error",
   [(5000, SseTask.reconnect)])

/-! ## Fetch-based tool calls (`/tools/{tool_id}/process`)

A call is modelled by its outcome: the fetch promise rejects
(`netErr`), or a response arrives with its `ok` flag, status, and a body
whose JSON decoding may itself throw.  The response body, where decoding
succeeds, is a `{success, message, data}` object, the shape these
endpoints return.  The final `textContent`/`className` of the result
element and the final `disabled` flag of the triggering button are the
observables; intermediate loading states are overwritten before the call
returns and are not part of the result. -/

/-- A result `<div>`: its text content and CSS class. -/
structure ResultDiv where
  text : String
  className : String
deriving DecidableEq, Repr

/-- Outcome of a `fetch` call. -/
inductive FetchOutcome (α : Type) where
  | netErr (msg : String)
  | resp (ok : Bool) (status : Nat) (body : Except String α)

/-- The `{success, message, data}` response shape of
`POST /tools/{tool_id}/process`. -/
structure ProcResp (π : Type) where
  success : Bool
  message : String
  data : Option π
deriving DecidableEq, Repr

/-- Payload of the alt-text endpoint (`data.alt_text`; absent field reads
as `undefined`). -/
structure AltPayload where
  alt_text : Option String
deriving DecidableEq, Repr

/-- Payload of the text-simplification endpoint
(`data.simplified_text`). -/
structure SimpPayload where
  simplified_text : Option String
deriving DecidableEq, Repr

/-- A selected image (`this.selectedImage` of the inline alt-text tool). -/
structure SelImage where
  url : String
  alt : String
  title : String
deriving DecidableEq, Repr

/-- `AIAltTextTool.generateAltText` (inline tool of the content script).
Without a selected image it writes the prompt into the result div and
returns before touching the button.  Otherwise the response JSON is read
as `data.data.alt_text` with no check of `response.ok` or of the
`success` flag; a missing `data` field is a TypeError caught by the
`catch` branch.  The `catch` branch writes `Error: <message>` with the
`result error` class; `finally` re-enables the button. -/
def generateAltText (sel : Option SelImage)
    (f : FetchOutcome (ProcResp AltPayload))
    (_res : ResultDiv) (btnDisabled : Bool) : ResultDiv × Bool :=
  match sel with
  | none =>
    ({ text := "Please select a photo first", className := "result error" },
     btnDisabled)
  | some _ =>
    match f with
    | FetchOutcome.netErr m =>
      ({ text := "Error: " ++ m, className := "result error" }, false)
    | FetchOutcome.resp _ _ (Except.error m) =>
      ({ text := "Error: " ++ m, className := "result error" }, false)
    | FetchOutcome.resp _ _ (Except.ok d) =>
      match d.data with
      | none =>
        ({ text := "Error: cannot read alt_text of undefined",
           className := "result error" }, false)
      | some p =>
        ({ text := p.alt_text.getD "undefined", className := "result success" },
         false)

/-- A selected text block (`this.selectedText` of the inline
text-simplification tool), by its text content and tag name. -/
structure SelText where
  text : String
  tagName : String
deriving DecidableEq, Repr

/-- The `#simplify-status` element written by `updateStatusMessage`: text
content, text color, and its (never reassigned) class attribute. -/
structure StatusDiv where
  text : String
  color : String
  className : String
deriving DecidableEq, Repr

/-- Result of a `TextSimplificationTool.simplifyText` call (inline tool):
final status element, button `disabled` flag, remaining selection, and the
simplified text written into the replacement element when the replacement
ran. -/
structure SimplifyOut where
  status : StatusDiv
  btnDisabled : Bool
  selectedText : Option SelText
  replaced : Option String
deriving DecidableEq, Repr

/-- `TextSimplificationTool.simplifyText` (inline tool of the content
script).  Status updates go through `updateStatusMessage`, which writes
`textContent` and `style.color` of `#simplify-status` (`#dc3545` for
errors, `#28a745` for success) and never touches any class attribute.  On
`success: true` the selected element is replaced with the simplified text
and the selection is cleared; on `success: false` the response message is
shown; a thrown fetch or JSON decoding lands in the `catch` branch;
`finally` re-enables the button. -/
def simplifyTextInline (sel : Option SelText)
    (f : FetchOutcome (ProcResp SimpPayload))
    (status : StatusDiv) (btnDisabled : Bool) : SimplifyOut :=
  match sel with
  | none =>
    { status := { status with text := "Please select text first", color := "#dc3545" },
      btnDisabled := btnDisabled, selectedText := none, replaced := none }
  | some s =>
    match f with
    | FetchOutcome.netErr m =>
      { status := { status with text := "Error: " ++ m, color := "#dc3545" },
        btnDisabled := false, selectedText := some s, replaced := none }
    | FetchOutcome.resp _ _ (Except.error m) =>
      { status := { status with text := "Error: " ++ m, color := "#dc3545" },
        btnDisabled := false, selectedText := some s, replaced := none }
    | FetchOutcome.resp _ _ (Except.ok d) =>
      if d.success then
        match d.data with
        | none =>
          { status := { status with
              text := "Error: cannot read simplified_text of undefined",
              color := "#dc3545" },
            btnDisabled := false, selectedText := some s, replaced := none }
        | some p =>
          { status := { status with text := "Text replaced!", color := "#28a745" },
            btnDisabled := false, selectedText := none,
            replaced := some (p.simplified_text.getD "undefined") }
      else
        { status := { status with text := "Error: " ++ d.message, color := "#dc3545" },
          btnDisabled := false, selectedText := some s, replaced := none }

/-- `TextSimplificationTool.process` of the tab page
(`extension/js/tools/text_simplification.js`): validates the form text,
checks `response.ok`, branches on `data.success`, writes the result div
with the `result success` or `result error` class, re-enables the button
in `finally`. -/
def tabSimplifyProcess (formText : String)
    (f : FetchOutcome (ProcResp SimpPayload)) : ResultDiv × Bool :=
  if formText = "" || strTrim formText = "" then
    ({ text := "Error: Please enter text to simplify", className := "result error" },
     false)
  else
    match f with
    | FetchOutcome.netErr m =>
      ({ text := "Error: " ++ m, className := "result error" }, false)
    | FetchOutcome.resp ok status body =>
      if !ok then
        ({ text := "Error: HTTP error! status: " ++ toString status,
           className := "result error" }, false)
      else
        match body with
        | Except.error m =>
          ({ text := "Error: " ++ m, className := "result error" }, false)
        | Except.ok d =>
          if d.success then
            ({ text := d.message, className := "result success" }, false)
          else
            ({ text := "Error: " ++ d.message, className := "result error" }, false)

/-- `AIAltTextTool.process` of the tab page (unnamed source file):
identical structure with the image-URL validation. -/
def tabAltTextProcess (formImageUrl : String)
    (f : FetchOutcome (ProcResp AltPayload)) : ResultDiv × Bool :=
  if formImageUrl = "" then
    ({ text := "Error: Please provide an image URL", className := "result error" },
     false)
  else
    match f with
    | FetchOutcome.netErr m =>
      ({ text := "Error: " ++ m, className := "result error" }, false)
    | FetchOutcome.resp ok status body =>
      if !ok then
        ({ text := "Error: HTTP error! status: " ++ toString status,
           className := "result error" }, false)
      else
        match body with
        | Except.error m =>
          ({ text := "Error: " ++ m, className := "result error" }, false)
        | Except.ok d =>
          if d.success then
            ({ text := d.message, className := "result success" }, false)
          else
            ({ text := "Error: " ++ d.message, className := "result error" }, false)

/-- `SpeechToInstructionsTool.process` of the tab page
(`extension/js/tools/speech_to_instructions.js`): same skeleton, no
validation step. -/
def tabSpeechProcess {π : Type} (f : FetchOutcome (ProcResp π)) :
    ResultDiv × Bool :=
  match f with
  | FetchOutcome.netErr m =>
    ({ text := "Error: " ++ m, className := "result error" }, false)
  | FetchOutcome.resp ok status body =>
    if !ok then
      ({ text := "Error: HTTP error! status: " ++ toString status,
         className := "result error" }, false)
    else
      match body with
      | Except.error m =>
        ({ text := "Error: " ++ m, className := "result error" }, false)
      | Except.ok d =>
        if d.success then
          ({ text := d.message, className := "result success" }, false)
        else
          ({ text := "Error: " ++ d.message, className := "result error" }, false)

/-! ## Image selection (inline AI alt-text tool) -/

/-- An `<img>` element on the page. -/
structure ImgEl where
  src : String
  alt : String
  title : String
deriving DecidableEq, Repr

/-- The tool-panel fields `updateSelectionUI` rewrites. -/
structure AiPanel where
  selectBtnText : String
  instruction : String
  photoInfoDisplay : String
  photoPreview : Option String
  photoUrl : String
  generateBtnDisabled : Bool
deriving DecidableEq, Repr

/-- Instance state of the inline `AIAltTextTool`. -/
structure AiToolState where
  selectedImage : Option SelImage
  isSelectingMode : Bool
  originalCursor : String
  shadowRootPresent : Bool
  containerPresent : Bool
deriving DecidableEq, Repr

/-- Page-level effects of photo selection. -/
structure AiPage where
  cursor : String
  imgListeners : Bool
deriving DecidableEq, Repr

/-- URL normalisation of `selectImage`.  The first branch keeps `data:` and
slash-prefixed URLs; because any `//`-prefixed URL also starts with `/`,
the protocol-prefixing branch is unreachable and the result is always
`img.src`. -/
def selectImageUrl (protocol src : String) : String :=
  if strStartsWith src "data:" || strStartsWith src "/" then src
  else if strStartsWith src "//" then protocol ++ src
  else src

/-- `AIAltTextTool.selectImage`: record URL, alt, and title of the clicked
image. -/
def selectImage (protocol : String) (img : ImgEl) (st : AiToolState) :
    AiToolState :=
  let sel : SelImage :=
    { url := selectImageUrl protocol img.src, alt := img.alt, title := img.title }
  { st with selectedImage := some sel }

/-- `AIAltTextTool.updateSelectionUI`. -/
def updateSelectionUI (st : AiToolState) (panel : AiPanel) : AiPanel :=
  match st.selectedImage with
  | some s =>
    { panel with
        selectBtnText := "Select Different Photo",
        instruction := "Click to select a different photo",
        photoInfoDisplay := "block",
        photoPreview := some s.url,
        photoUrl := s.url,
        generateBtnDisabled := false }
  | none =>
    { panel with
        selectBtnText := "Select Photo on Page",
        instruction := "Click the button above to start selecting photos",
        photoInfoDisplay := "none",
        generateBtnDisabled := true }

/-- `AIAltTextTool.disablePhotoSelection`: restore the cursor and remove
the image listeners. -/
def disablePhotoSelection (st : AiToolState) (page : AiPage) : AiPage :=
  { page with cursor := st.originalCursor, imgListeners := false }

/-- `AIAltTextTool.handleImageClick`: in selection mode, select the image,
leave selection mode, detach the image listeners, and refresh the panel
when the shadow root and tool panel are available. -/
def handleImageClick (protocol : String) (img : ImgEl)
    (st : AiToolState) (panel : AiPanel) (page : AiPage) :
    AiToolState × AiPanel × AiPage :=
  if st.isSelectingMode then
    let st1 := selectImage protocol img st
    let st2 := { st1 with isSelectingMode := false }
    let page1 := disablePhotoSelection st2 page
    let panel1 :=
      if st2.shadowRootPresent && st2.containerPresent then
        updateSelectionUI st2 panel
      else panel
    (st2, panel1, page1)
  else (st, panel, page)

/-! ## Panel lifecycle and transient DOM-selection state
(`FloatingAccessibilityTools`)

The event system below models the reachable UI flows of the floating panel:
a tool is opened from the tools grid (visible only while no tool panel is
open), used, and closed through `closeTool`.  The per-tool instance states
are the `textSimplificationState`/`aiAltTextState` references; the
page-level footprint of selection (attached listeners, outline/background
highlighting on page elements) is abstracted into four booleans. -/

/-- Instance state of the inline text-simplification tool, as kept by the
`textSimplificationState` reference. -/
structure TsInst where
  selectedText : Option String
  isSelectingMode : Bool
deriving DecidableEq, Repr

/-- Instance state of the inline alt-text tool, as kept by the
`aiAltTextState` reference. -/
structure AiInst where
  selectedImage : Option String
  isSelectingMode : Bool
deriving DecidableEq, Repr

/-- Page-level selection footprint: listeners attached by
`enableTextSelection`/`enablePhotoSelection`, and any outline/background
highlighting present on page elements. -/
structure PageFx where
  tsListeners : Bool
  aiListeners : Bool
  tsHighlight : Bool
  aiHighlight : Bool
deriving DecidableEq, Repr

/-- State of the floating-tools controller. -/
structure AppState where
  currentTool : Option String
  tsRef : Option TsInst
  aiRef : Option AiInst
  page : PageFx
deriving DecidableEq, Repr

/-- Initial state of `FloatingAccessibilityTools`. -/
def initApp : AppState :=
  { currentTool := none, tsRef := none, aiRef := none,
    page := { tsListeners := false, aiListeners := false,
              tsHighlight := false, aiHighlight := false } }

/-- The configured tool ids. -/
def toolIds : List String :=
  ["speech_to_instructions", "ai_alt_text", "adaptive_css",
   "semantic_search", "text_simplification"]

/-- UI events relevant to selection state. -/
inductive AppEv where
  | openTool (id : String)
  | closeTool
  | tsToggle
  | tsHover
  | tsLeave
  | tsClick (txt : String)
  | tsSimplified
  | aiToggle
  | aiHover
  | aiLeave
  | aiClick (url : String)
deriving DecidableEq, Repr

/-- `FloatingAccessibilityTools.resetTextSimplificationState`: when the
reference is set, turn off selection mode, detach the text listeners, clear
all text highlighting, and null the selection. -/
def resetTextSimplificationState (s : AppState) : AppState :=
  match s.tsRef with
  | some _ =>
    { s with
        tsRef := some { selectedText := none, isSelectingMode := false },
        page := { s.page with tsListeners := false, tsHighlight := false } }
  | none => s

/-- `FloatingAccessibilityTools.resetAIAltTextState`: the image-selection
analogue. -/
def resetAIAltTextState (s : AppState) : AppState :=
  match s.aiRef with
  | some _ =>
    { s with
        aiRef := some { selectedImage := none, isSelectingMode := false },
        page := { s.page with aiListeners := false, aiHighlight := false } }
  | none => s

/-- `FloatingAccessibilityTools.resetCurrentToolState`: dispatch on the
current tool. -/
def resetCurrentToolState (s : AppState) : AppState :=
  if s.currentTool = some "text_simplification" then
    resetTextSimplificationState s
  else if s.currentTool = some "ai_alt_text" then
    resetAIAltTextState s
  else s

/-- `FloatingAccessibilityTools.closeTool`: reset the current tool state,
then clear the instance references and the current tool. -/
def closeTool (s : AppState) : AppState :=
  let s1 := resetCurrentToolState s
  { s1 with tsRef := none, aiRef := none, currentTool := none }

/-- One UI event step.  Guards encode reachability of the handler: the
tools grid is hidden while a tool panel is open, tool-panel buttons exist
only for the open tool, and page-selection handlers run only while their
listeners are attached. -/
def applyEv (e : AppEv) (s : AppState) : AppState :=
  match e with
  | AppEv.openTool id =>
    if s.currentTool = none ∧ toolIds.contains id then
      let s1 := { s with currentTool := some id }
      if id = "text_simplification" then
        { s1 with tsRef := some { selectedText := none, isSelectingMode := false } }
      else if id = "ai_alt_text" then
        { s1 with aiRef := some { selectedImage := none, isSelectingMode := false } }
      else s1
    else s
  | AppEv.closeTool =>
    if s.currentTool ≠ none then closeTool s else s
  | AppEv.tsToggle =>
    match s.currentTool, s.tsRef with
    | some t, some inst =>
      if t = "text_simplification" then
        if !inst.isSelectingMode then
          { s with
              tsRef := some { inst with isSelectingMode := true },
              page := { s.page with tsListeners := true, tsHighlight := false } }
        else
          { s with
              tsRef := some { selectedText := none, isSelectingMode := false },
              page := { s.page with tsListeners := false, tsHighlight := false } }
      else s
    | _, _ => s
  | AppEv.tsHover =>
    match s.tsRef with
    | some inst =>
      if s.page.tsListeners && inst.isSelectingMode then
        { s with page := { s.page with tsHighlight := true } }
      else s
    | none => s
  | AppEv.tsLeave =>
    match s.tsRef with
    | some inst =>
      if s.page.tsListeners && inst.isSelectingMode then
        { s with page := { s.page with tsHighlight := inst.selectedText.isSome } }
      else s
    | none => s
  | AppEv.tsClick txt =>
    match s.tsRef with
    | some inst =>
      if s.page.tsListeners && inst.isSelectingMode then
        { s with
            tsRef := some { selectedText := some txt, isSelectingMode := false },
            page := { s.page with tsListeners := false, tsHighlight := true } }
      else s
    | none => s
  | AppEv.tsSimplified =>
    match s.currentTool, s.tsRef with
    | some t, some inst =>
      if t == "text_simplification" && inst.selectedText.isSome then
        { s with
            tsRef := some { inst with selectedText := none },
            page := { s.page with tsHighlight := false } }
      else s
    | _, _ => s
  | AppEv.aiToggle =>
    match s.currentTool, s.aiRef with
    | some t, some inst =>
      if t = "ai_alt_text" then
        if !inst.isSelectingMode then
          { s with
              aiRef := some { inst with isSelectingMode := true },
              page := { s.page with aiListeners := true, aiHighlight := false } }
        else
          { s with
              aiRef := some { inst with isSelectingMode := false },
              page := { s.page with aiListeners := false, aiHighlight := false } }
      else s
    | _, _ => s
  | AppEv.aiHover =>
    match s.aiRef with
    | some inst =>
      if s.page.aiListeners && inst.isSelectingMode then
        { s with page := { s.page with aiHighlight := true } }
      else s
    | none => s
  | AppEv.aiLeave =>
    match s.aiRef with
    | some inst =>
      if s.page.aiListeners && inst.isSelectingMode then
        { s with page := { s.page with aiHighlight := false } }
      else s
    | none => s
  | AppEv.aiClick url =>
    match s.aiRef with
    | some inst =>
      if s.page.aiListeners && inst.isSelectingMode then
        { s with
            aiRef := some { selectedImage := some url, isSelectingMode := false },
            page := { s.page with aiListeners := false, aiHighlight := false } }
      else s
    | none => s

/-- Run a list of UI events from the initial state. -/
def runEvents (evs : List AppEv) : AppState :=
  evs.foldl (fun s e => applyEv e s) initApp

/-- Reachability invariant: a tool instance reference is only set while its
tool is the current one, and page-level selection footprint exists only
while the owning instance reference is set. -/
def AppInv (s : AppState) : Prop :=
  (s.tsRef ≠ none → s.currentTool = some "text_simplification") ∧
  (s.aiRef ≠ none → s.currentTool = some "ai_alt_text") ∧
  (s.page.tsListeners = true → s.tsRef ≠ none) ∧
  (s.page.tsHighlight = true → s.tsRef ≠ none) ∧
  (s.page.aiListeners = true → s.aiRef ≠ none) ∧
  (s.page.aiHighlight = true → s.aiRef ≠ none)

/-- No transient selection state: no instance references, no current tool,
no listeners, no highlighting. -/
def CleanState (s : AppState) : Prop :=
  s.tsRef = none ∧ s.aiRef = none ∧ s.currentTool = none ∧
  s.page.tsListeners = false ∧ s.page.aiListeners = false ∧
  s.page.tsHighlight = false ∧ s.page.aiHighlight = false

/-- An empty speech-tool state (fresh tool instance with no audio player),
used by concrete witnesses. -/
def emptySpeechState : SpeechState :=
  { currentMessageId := none, messageBuffer := "", processingButton := false,
    chat := [], system := [], outbox := [], clicks := [], sched := [],
    audioPlayer := false, audioOut := [], audioEnds := 0, err := none }

/-- A small sample document used by concrete witnesses: a text block and
two buttons. -/
def sampleDoc : List PageElem :=
  [ { tag := "div", text := "welcome text", id := "intro", hasOnclick := false,
      visible := true },
    { tag := "button", text := "Save it", id := "b1", hasOnclick := false,
      visible := true },
    { tag := "button", text := "Other", id := "b2", hasOnclick := false,
      visible := false } ]

/-!
# Theorems
-/

/-- C2: for both SSE chat connections (speech commands and semantic
search), every error event on the `EventSource` schedules exactly one
reconnect attempt — a new `connectSSE` call — after a fixed 5000 ms delay,
independent of the state, hence of the number of consecutive failures. -/
theorem c2_sse_reconnect_fixed_delay :
    (∀ st : SpeechState, (speechOnError st).2 = [(5000, SseTask.reconnect)]) ∧
    (∀ st : SearchState, (searchOnError st).2 = [(5000, SseTask.reconnect)]) :=
  ⟨fun _ => rfl, fun _ => rfl⟩

/-- C7: the speech-commands tool opens its SSE stream at
`http://localhost:8000/events/{session_id}?is_audio={b}` for the current
audio-mode flag, and every mode toggle closes the existing `EventSource`
(when there is one) and reconnects to the same endpoint with the flipped
flag and the same session id. -/
theorem c7_sse_endpoint_and_toggle :
    (∀ st : SpeechConn, (connectSSE st).eventSource =
      some { url := speechSseUrl st.sessionId st.isAudioMode }) ∧
    (∀ st : SpeechConn,
      (toggleMode st).sessionId = st.sessionId ∧
      (toggleMode st).isAudioMode = !st.isAudioMode ∧
      (toggleMode st).eventSource =
        some { url := speechSseUrl st.sessionId (!st.isAudioMode) } ∧
      (toggleMode st).closedSources = st.closedSources ++ st.eventSource.toList) := by
  refine ⟨fun st => rfl, fun st => ?_⟩
  unfold toggleMode connectSSE
  cases h : st.eventSource <;> by_cases hm : st.isAudioMode <;>
    simp [h, hm, Option.toList]

/-- C6: in the AI alt-text tool, with selection mode enabled (and the tool
panel present in the shadow root), clicking an image selects it — recording
its URL, alt and title — exits selection mode, shows the selected-photo
preview and URL in the panel, enables the generate button, and detaches the
page-level image listeners. -/
theorem c6_image_click_selects (protocol : String) (img : ImgEl)
    (st : AiToolState) (panel : AiPanel) (page : AiPage)
    (hmode : st.isSelectingMode = true)
    (hshadow : st.shadowRootPresent = true)
    (hcont : st.containerPresent = true) :
    (handleImageClick protocol img st panel page).1.selectedImage =
      some { url := selectImageUrl protocol img.src, alt := img.alt,
             title := img.title } ∧
    (handleImageClick protocol img st panel page).1.isSelectingMode = false ∧
    (handleImageClick protocol img st panel page).2.1.photoInfoDisplay = "block" ∧
    (handleImageClick protocol img st panel page).2.1.photoPreview =
      some (selectImageUrl protocol img.src) ∧
    (handleImageClick protocol img st panel page).2.1.photoUrl =
      selectImageUrl protocol img.src ∧
    (handleImageClick protocol img st panel page).2.1.generateBtnDisabled = false ∧
    (handleImageClick protocol img st panel page).2.2.imgListeners = false := by
  simp [handleImageClick, selectImage, updateSelectionUI, disablePhotoSelection,
    hmode, hshadow, hcont]

/-- Witness for C6 at a concrete image and state. -/
theorem c6_image_click_selects_witness :
    ((({ selectedImage := none, isSelectingMode := true, originalCursor := "",
         shadowRootPresent := true, containerPresent := true } : AiToolState)).isSelectingMode
        = true) ∧
    (handleImageClick "https:" { src := "https://a/x.png", alt := "cat", title := "t" }
        { selectedImage := none, isSelectingMode := true, originalCursor := "",
          shadowRootPresent := true, containerPresent := true }
        { selectBtnText := "Select Photo on Page", instruction := "",
          photoInfoDisplay := "none", photoPreview := none, photoUrl := "",
          generateBtnDisabled := true }
        { cursor := "crosshair", imgListeners := true }).1.selectedImage =
      some { url := selectImageUrl "https:" "https://a/x.png", alt := "cat",
             title := "t" } :=
  ⟨rfl,
   (c6_image_click_selects "https:"
      { src := "https://a/x.png", alt := "cat", title := "t" }
      { selectedImage := none, isSelectingMode := true, originalCursor := "",
        shadowRootPresent := true, containerPresent := true }
      { selectBtnText := "Select Photo on Page", instruction := "",
        photoInfoDisplay := "none", photoPreview := none, photoUrl := "",
        generateBtnDisabled := true }
      { cursor := "crosshair", imgListeners := true } rfl rfl rfl).1⟩

/-- C1 (amended): when the fetch call or the response handling throws, the
error is caught at the call site and the triggering button is re-enabled in
every backend tool invocation; `generateAltText` and the three tab-page
`process` functions write `Error: <message>` into the result div with the
`result error` class, while the inline text-simplification `simplifyText`
writes `Error: <message>` into its status element with the error text color
`#dc3545` and changes no CSS class. -/
theorem c1_error_paths (m : String) (si : SelImage) (ts : SelText)
    (res : ResultDiv) (status : StatusDiv) (b okf : Bool) (stat : Nat)
    (formText formUrl : String)
    (hft0 : formText ≠ "") (hft : strTrim formText ≠ "") (hfu : formUrl ≠ "") :
    (generateAltText (some si) (FetchOutcome.netErr m) res b =
      ({ text := "Error: " ++ m, className := "result error" }, false)) ∧
    (generateAltText (some si) (FetchOutcome.resp okf stat (Except.error m)) res b =
      ({ text := "Error: " ++ m, className := "result error" }, false)) ∧
    (simplifyTextInline (some ts) (FetchOutcome.netErr m) status b =
      { status := { status with text := "Error: " ++ m, color := "#dc3545" },
        btnDisabled := false, selectedText := some ts, replaced := none }) ∧
    (simplifyTextInline (some ts) (FetchOutcome.resp okf stat (Except.error m)) status b =
      { status := { status with text := "Error: " ++ m, color := "#dc3545" },
        btnDisabled := false, selectedText := some ts, replaced := none }) ∧
    (tabSimplifyProcess formText (FetchOutcome.netErr m) =
      ({ text := "Error: " ++ m, className := "result error" }, false)) ∧
    (tabSimplifyProcess formText (FetchOutcome.resp true stat (Except.error m)) =
      ({ text := "Error: " ++ m, className := "result error" }, false)) ∧
    (tabSimplifyProcess formText (FetchOutcome.resp false stat (Except.error m)) =
      ({ text := "Error: HTTP error! status: " ++ toString stat,
         className := "result error" }, false)) ∧
    (tabAltTextProcess formUrl (FetchOutcome.netErr m) =
      ({ text := "Error: " ++ m, className := "result error" }, false)) ∧
    (tabAltTextProcess formUrl (FetchOutcome.resp true stat (Except.error m)) =
      ({ text := "Error: " ++ m, className := "result error" }, false)) ∧
    (tabSpeechProcess (π := Unit) (FetchOutcome.netErr m) =
      ({ text := "Error: " ++ m, className := "result error" }, false)) ∧
    (tabSpeechProcess (π := Unit) (FetchOutcome.resp true stat (Except.error m)) =
      ({ text := "Error: " ++ m, className := "result error" }, false)) := by
  refine ⟨rfl, rfl, rfl, rfl, ?_, ?_, ?_, ?_, ?_, rfl, rfl⟩ <;>
    simp [tabSimplifyProcess, tabAltTextProcess, hft0, hft, hfu]

/-- Witness for C1 at concrete inputs. -/
theorem c1_error_paths_witness :
    (("read this" : String) ≠ "" ∧ strTrim "read this" ≠ "" ∧
      ("https://a/x.png" : String) ≠ "") ∧
    (generateAltText (some { url := "u", alt := "", title := "" })
        (FetchOutcome.netErr "Failed to fetch")
        { text := "", className := "result" } true =
      ({ text := "Error: Failed to fetch", className := "result error" }, false)) :=
  ⟨⟨by decide, by decide, by decide⟩,
   (c1_error_paths "Failed to fetch" { url := "u", alt := "", title := "" }
      { text := "para", tagName := "p" } { text := "", className := "result" }
      { text := "", color := "#666", className := "" } true true 500
      "read this" "https://a/x.png" (by decide) (by decide) (by decide)).1⟩

/-- C1 counterexample: in the inline text-simplification tool a throwing
fetch writes the error message into the `#simplify-status` element, whose
class attribute is unchanged (empty here) — not into a result div with the
error CSS class, contradicting the claim as stated. -/
theorem c1_counterexample :
    (simplifyTextInline (some { text := "para", tagName := "p" })
        (FetchOutcome.netErr "network down")
        { text := "Simplify the selected text using AI", color := "#666",
          className := "" } true).status.text = "Error: network down" ∧
    (simplifyTextInline (some { text := "para", tagName := "p" })
        (FetchOutcome.netErr "network down")
        { text := "Simplify the selected text using AI", color := "#666",
          className := "" } true).status.className = "" ∧
    ("" : String) ≠ "result error" :=
  ⟨rfl, rfl, by decide⟩

/-- C4 (amended): the tab-page `process` functions interpret the response
as a `{success, message, data}` object — on `success: true` they display
the message with the success class, on `success: false` they display
`Error: <message>` with the error class; the inline `generateAltText`
however ignores `success` and `message` and always renders
`data.data.alt_text` with the success class. -/
theorem c4_response_shape (formText formUrl : String) (stat : Nat)
    (hft0 : formText ≠ "") (hft : strTrim formText ≠ "") (hfu : formUrl ≠ "")
    (d : ProcResp SimpPayload) (d2 : ProcResp AltPayload)
    (da : ProcResp AltPayload) (p : AltPayload) (t : String) (si : SelImage)
    (res : ResultDiv) (b okf : Bool)
    (hdata : da.data = some p) (halt : p.alt_text = some t) :
    (tabSimplifyProcess formText (FetchOutcome.resp true stat (Except.ok d)) =
      ((if d.success then
          ({ text := d.message, className := "result success" } : ResultDiv)
        else { text := "Error: " ++ d.message, className := "result error" }),
       false)) ∧
    (tabAltTextProcess formUrl (FetchOutcome.resp true stat (Except.ok d2)) =
      ((if d2.success then
          ({ text := d2.message, className := "result success" } : ResultDiv)
        else { text := "Error: " ++ d2.message, className := "result error" }),
       false)) ∧
    (generateAltText (some si) (FetchOutcome.resp okf stat (Except.ok da)) res b =
      ({ text := t, className := "result success" }, false)) := by
  refine ⟨?_, ?_, ?_⟩
  · by_cases h : d.success <;> simp [tabSimplifyProcess, hft0, hft, h]
  · by_cases h : d2.success <;> simp [tabAltTextProcess, hfu, h]
  · simp [generateAltText, hdata, halt]

/-- Witness for C4 at concrete inputs. -/
theorem c4_response_shape_witness :
    (("read this" : String) ≠ "" ∧
      (({ success := true, message := "ok", data := some { alt_text := some "a dog" } }
        : ProcResp AltPayload)).data = some { alt_text := some "a dog" }) ∧
    (tabSimplifyProcess "read this"
        (FetchOutcome.resp true 200 (Except.ok
          ({ success := true, message := "Simplified!", data := none } : ProcResp SimpPayload))) =
      ((if (({ success := true, message := "Simplified!", data := none } : ProcResp SimpPayload)).success then
          ({ text := "Simplified!", className := "result success" } : ResultDiv)
        else { text := "Error: Simplified!", className := "result error" }),
       false)) :=
  ⟨⟨by decide, rfl⟩,
   (c4_response_shape "read this" "https://a/x.png" 200 (by decide) (by decide)
      (by decide)
      { success := true, message := "Simplified!", data := none }
      { success := true, message := "ok", data := none }
      { success := true, message := "ok", data := some { alt_text := some "a dog" } }
      { alt_text := some "a dog" } "a dog" { url := "u", alt := "", title := "" }
      { text := "", className := "" } false true rfl rfl).1⟩

/-- C4 counterexample: on a response with `success: false` the inline
`generateAltText` still displays the payload with the success class rather
than `Error: <message>` with the error class. -/
theorem c4_counterexample :
    generateAltText (some { url := "u", alt := "", title := "" })
      (FetchOutcome.resp true 200 (Except.ok
        { success := false, message := "boom",
          data := some { alt_text := some "a cat" } }))
      { text := "", className := "result" } false =
      ({ text := "a cat", className := "result success" }, false) ∧
    ("a cat" : String) ≠ "Error: boom" :=
  ⟨rfl, by decide⟩

/-- Keys are pairwise distinct. -/
def keyDistinct (l : List PageElem) : Prop :=
  List.Pairwise (fun a b => candKey a ≠ candKey b) l

/-- First scan pass: appends only visible elements, keeps every output key
in the seen set, and preserves key distinctness. -/
theorem scanPass1_spec (l : List PageElem) : ∀ (seen : List String)
    (uniq : List PageElem),
    (∀ x ∈ uniq, candKey x ∈ seen) → keyDistinct uniq →
    ∃ add, (scanPass1 l seen uniq).1 = uniq ++ add ∧
      (∀ x ∈ add, x.visible = true) ∧
      (∀ x ∈ (scanPass1 l seen uniq).1, candKey x ∈ (scanPass1 l seen uniq).2) ∧
      keyDistinct (scanPass1 l seen uniq).1 := by
  induction l with
  | nil =>
    intro seen uniq h1 h2
    exact ⟨[], by simp [scanPass1], by simp, by simpa [scanPass1] using h1,
      by simpa [scanPass1] using h2⟩
  | cons e rest ih =>
    intro seen uniq h1 h2
    simp only [scanPass1]
    split
    · rename_i hcond
      simp only [Bool.and_eq_true, Bool.not_eq_true', List.elem_eq_mem,
        decide_eq_false_iff_not] at hcond
      have hvis : e.visible = true := hcond.1
      have hnotseen : candKey e ∉ seen := hcond.2
      have h1' : ∀ x ∈ uniq ++ [e], candKey x ∈ seen ++ [candKey e] := by
        intro x hx
        rcases List.mem_append.1 hx with hx | hx
        · exact List.mem_append_left _ (h1 x hx)
        · simp at hx
          subst hx
          simp
      have h2' : keyDistinct (uniq ++ [e]) := by
        rw [keyDistinct, List.pairwise_append]
        refine ⟨h2, by simp, ?_⟩
        intro a ha b hb
        simp at hb
        subst hb
        intro heq
        exact hnotseen (heq ▸ h1 a ha)
      obtain ⟨add, hadd, haddvis, hmem, hdist⟩ :=
        ih (seen ++ [candKey e]) (uniq ++ [e]) h1' h2'
      refine ⟨e :: add, ?_, ?_, hmem, hdist⟩
      · rw [hadd]
        simp
      · intro x hx
        rcases List.mem_cons.1 hx with hx | hx
        · subst hx
          exact hvis
        · exact haddvis x hx
    · exact ih seen uniq h1 h2

/-- Second scan pass: appends only non-visible elements, keeps every output
key in the seen set, and preserves key distinctness. -/
theorem scanPass2_spec (l : List PageElem) : ∀ (seen : List String)
    (uniq : List PageElem),
    (∀ x ∈ uniq, candKey x ∈ seen) → keyDistinct uniq →
    ∃ add, (scanPass2 l seen uniq).1 = uniq ++ add ∧
      (∀ x ∈ add, x.visible = false) ∧
      (∀ x ∈ (scanPass2 l seen uniq).1, candKey x ∈ (scanPass2 l seen uniq).2) ∧
      keyDistinct (scanPass2 l seen uniq).1 := by
  induction l with
  | nil =>
    intro seen uniq h1 h2
    exact ⟨[], by simp [scanPass2], by simp, by simpa [scanPass2] using h1,
      by simpa [scanPass2] using h2⟩
  | cons e rest ih =>
    intro seen uniq h1 h2
    simp only [scanPass2]
    split
    · rename_i hcond
      simp only [Bool.and_eq_true, Bool.not_eq_true', List.elem_eq_mem,
        decide_eq_false_iff_not] at hcond
      have hvis : e.visible = false := hcond.1.1
      have hnotseen : candKey e ∉ seen := hcond.1.2
      have h1' : ∀ x ∈ uniq ++ [e], candKey x ∈ seen ++ [candKey e] := by
        intro x hx
        rcases List.mem_append.1 hx with hx | hx
        · exact List.mem_append_left _ (h1 x hx)
        · simp at hx
          subst hx
          simp
      have h2' : keyDistinct (uniq ++ [e]) := by
        rw [keyDistinct, List.pairwise_append]
        refine ⟨h2, by simp, ?_⟩
        intro a ha b hb
        simp at hb
        subst hb
        intro heq
        exact hnotseen (heq ▸ h1 a ha)
      obtain ⟨add, hadd, haddvis, hmem, hdist⟩ :=
        ih (seen ++ [candKey e]) (uniq ++ [e]) h1' h2'
      refine ⟨e :: add, ?_, ?_, hmem, hdist⟩
      · rw [hadd]
        simp
      · intro x hx
        rcases List.mem_cons.1 hx with hx | hx
        · subst hx
          exact hvis
        · exact haddvis x hx
    · exact ih seen uniq h1 h2

/-- C9: `scanWebpageElements` returns at most 30 elements; the returned
elements have pairwise distinct `tagName-text-id` keys; every visible
element of the result precedes every non-visible one; and `totalFound`
equals the number of candidates collected before deduplication. -/
theorem c9_scan_properties (doc : List PageElem) :
    (scanWebpageElements doc).elements.length ≤ 30 ∧
    keyDistinct (scanWebpageElements doc).elements ∧
    (∃ vis invis, (scanWebpageElements doc).elements = vis ++ invis ∧
      (∀ x ∈ vis, x.visible = true) ∧ (∀ x ∈ invis, x.visible = false)) ∧
    (scanWebpageElements doc).totalFound = doc.length := by
  obtain ⟨add1, hadd1, hvis1, hmem1, hdist1⟩ :=
    scanPass1_spec doc [] [] (by simp) (by simp [keyDistinct])
  obtain ⟨add2, hadd2, hvis2, hmem2, hdist2⟩ :=
    scanPass2_spec doc (scanPass1 doc [] []).2 (scanPass1 doc [] []).1
      hmem1 hdist1
  have helems : (scanWebpageElements doc).elements =
      ((scanPass2 doc (scanPass1 doc [] []).2 (scanPass1 doc [] []).1).1).take 30 := rfl
  refine ⟨?_, ?_, ?_, rfl⟩
  · rw [helems]
    exact List.length_take_le 30 _
  · rw [helems]
    exact List.Pairwise.sublist (List.take_sublist 30 _) hdist2
  · rw [helems, hadd2, hadd1]
    simp only [List.nil_append]
    rw [List.take_append_eq_append_take]
    refine ⟨add1.take 30, add2.take (30 - add1.length), rfl, ?_, ?_⟩
    · intro x hx
      exact hvis1 x (List.mem_of_mem_take hx)
    · intro x hx
      exact hvis2 x (List.mem_of_mem_take hx)

/-- The base64 table and its inverse scan. -/
theorem b64_dec_tbl : ∀ n < 64, b64dec (b64tbl n) = n := by decide

/-- No table entry is the padding character. -/
theorem b64_tbl_ne_pad : ∀ n < 64, b64tbl n ≠ '=' := by decide

/-- Decoding inverts encoding on byte lists. -/
theorem decodeB64_encodeB64 : ∀ (l : List Nat), (∀ x ∈ l, x < 256) →
    decodeB64 (encodeB64 l) = l
  | [], _ => rfl
  | [a], h => by
    have ha : a < 256 := h a (by simp)
    have h1 : a / 4 < 64 := by omega
    have h2 : a % 4 * 16 < 64 := by omega
    simp only [encodeB64, decodeB64, if_true]
    rw [b64_dec_tbl _ h1, b64_dec_tbl _ h2]
    have : a / 4 * 4 + a % 4 * 16 / 16 = a := by omega
    rw [this]
  | [a, b], h => by
    have ha : a < 256 := h a (by simp)
    have hb : b < 256 := h b (by simp)
    have h1 : a / 4 < 64 := by omega
    have h2 : a % 4 * 16 + b / 16 < 64 := by omega
    have h3 : b % 16 * 4 < 64 := by omega
    simp only [encodeB64, decodeB64]
    rw [if_neg (b64_tbl_ne_pad _ h3)]
    simp only [if_true]
    rw [b64_dec_tbl _ h1, b64_dec_tbl _ h2, b64_dec_tbl _ h3]
    have e1 : a / 4 * 4 + (a % 4 * 16 + b / 16) / 16 = a := by omega
    have e2 : (a % 4 * 16 + b / 16) % 16 * 16 + b % 16 * 4 / 4 = b := by omega
    rw [e1, e2]
  | a :: b :: c :: rest, h => by
    have ha : a < 256 := h a (by simp)
    have hb : b < 256 := h b (by simp)
    have hc : c < 256 := h c (by simp)
    have h1 : a / 4 < 64 := by omega
    have h2 : a % 4 * 16 + b / 16 < 64 := by omega
    have h3 : b % 16 * 4 + c / 64 < 64 := by omega
    have h4 : c % 64 < 64 := by omega
    have hrest : ∀ x ∈ rest, x < 256 := fun x hx => h x (by simp [hx])
    simp only [encodeB64, decodeB64]
    rw [if_neg (b64_tbl_ne_pad _ h3), if_neg (b64_tbl_ne_pad _ h4),
      b64_dec_tbl _ h1, b64_dec_tbl _ h2, b64_dec_tbl _ h3, b64_dec_tbl _ h4,
      decodeB64_encodeB64 rest hrest]
    have e1 : a / 4 * 4 + (a % 4 * 16 + b / 16) / 16 = a := by omega
    have e2 : (a % 4 * 16 + b / 16) % 16 * 16 + (b % 16 * 4 + c / 64) / 4 = b := by
      omega
    have e3 : (b % 16 * 4 + c / 64) % 4 * 64 + c % 64 = c := by omega
    rw [e1, e2, e3]

/-- C10: for every byte buffer, `base64ToArray (arrayBufferToBase64 buf)`
returns exactly the bytes of `buf`: the speech tool's base64 encoder and
decoder are mutually inverse on byte buffers. -/
theorem c10_base64_roundtrip (buf : List Nat) (h : ∀ x ∈ buf, x < 256) :
    base64ToArray (arrayBufferToBase64 buf) = buf := by
  show decodeB64 (encodeB64 buf) = buf
  exact decodeB64_encodeB64 buf h

/-- Witness for C10 on a concrete buffer. -/
theorem c10_base64_roundtrip_witness :
    (∀ x ∈ [0, 1, 77, 127, 255], x < 256) ∧
    base64ToArray (arrayBufferToBase64 [0, 1, 77, 127, 255]) = [0, 1, 77, 127, 255] :=
  ⟨by decide, c10_base64_roundtrip [0, 1, 77, 127, 255] (by decide)⟩

/-- The head of a filtered list is the first element satisfying the
predicate. -/
theorem head?_filter_eq_find? {α : Type} (p : α → Bool) (l : List α) :
    (l.filter p).head? = l.find? p := by
  induction l with
  | nil => rfl
  | cons a t ih =>
    by_cases h : p a <;> simp [List.filter_cons, List.find?_cons, h, ih]

/-- For a nonempty `elementId` the code-side target search agrees with the
claim-side four-stage order. -/
theorem buttonTargetOf_eq_claim (eid : String) (doc : List PageElem)
    (hne : eid ≠ "") : buttonTargetOf eid doc = claimTargetOrder eid doc := by
  unfold buttonTargetOf claimTargetOrder
  rw [if_pos hne, ← head?_filter_eq_find? (fun e => e.tag == "button") doc]

/-- C5 (amended): for a button-action `elementId` that is nonempty and a
usable CSS id selector, `handleButtonAction` clicks exactly the first
element found by the claimed order — id match, description-derived button
match, generic-pattern/onclick button match, first button — and when none
is found shows the `No button found on webpage` error system message and
clicks nothing. -/
theorem c5_button_target_cascade (eid : String) (doc : List PageElem)
    (st : SpeechState) (hne : eid ≠ "") (hvalid : validIdSel eid = true) :
    (handleButtonActionE eid doc st).2 = none ∧
    (∀ e, claimTargetOrder eid doc = some e →
      (handleButtonActionE eid doc st).1.clicks = st.clicks ++ [e] ∧
      (handleButtonActionE eid doc st).1.system = st.system) ∧
    (claimTargetOrder eid doc = none →
      (handleButtonActionE eid doc st).1.clicks = st.clicks ∧
      (handleButtonActionE eid doc st).1.system =
        st.system ++ [("No button found on webpage", "error")]) := by
  have htarget := buttonTargetOf_eq_claim eid doc hne
  unfold handleButtonActionE
  rw [hvalid]
  simp only [Bool.not_true, Bool.and_false, Bool.false_eq_true, if_false]
  rw [htarget]
  cases hc : claimTargetOrder eid doc with
  | none => simp [addSystemMessage]
  | some e =>
    refine ⟨rfl, ?_, by simp⟩
    intro e2 he2
    obtain rfl : e = e2 := by injection he2
    simp

/-- Witness for C5 at a concrete elementId and document. -/
theorem c5_button_target_cascade_witness :
    (("button-save" : String) ≠ "" ∧ validIdSel "button-save" = true) ∧
    (handleButtonActionE "button-save" sampleDoc emptySpeechState).2 = none :=
  ⟨⟨by decide, by decide⟩,
   (c5_button_target_cascade "button-save" sampleDoc emptySpeechState
      (by decide) (by decide)).1⟩

/-- C5 counterexample: for the digit-leading `elementId` `9abc` the claimed
order finds the generic-pattern button (`Save it`), but the code throws a
`SyntaxError` in the initial `document.querySelector('#9abc')` call and
clicks nothing, so the claim fails as stated. -/
theorem c5_counterexample :
    claimTargetOrder "9abc" sampleDoc =
      some { tag := "button", text := "Save it", id := "b1", hasOnclick := false,
             visible := true } ∧
    handleButtonActionE "9abc" sampleDoc emptySpeechState =
      (emptySpeechState, some "SyntaxError: invalid selector") ∧
    (handleButtonActionE "9abc" sampleDoc emptySpeechState).1.clicks = [] := by
  decide

/-- A usable id selector is nonempty. -/
theorem validIdSel_ne_empty {s : String} (h : validIdSel s = true) : s ≠ "" := by
  intro he
  subst he
  exact absurd h (by decide)

/-- Appending into an existing chat message preserves the length. -/
theorem appendToFirst_length (l : List ChatMsg) (cid dta : String) :
    (appendToFirst l cid dta).length = l.length := by
  induction l with
  | nil => rfl
  | cons m t ih => by_cases h : m.mid == some cid <;> simp [appendToFirst, h, ih]

/-- When no earlier message carries the id, `appendToFirst` updates exactly
the freshly appended message. -/
theorem appendToFirst_fresh_append (l : List ChatMsg) (m : ChatMsg)
    (cid dta : String) (hfresh : ∀ x ∈ l, x.mid ≠ some cid)
    (hm : m.mid = some cid) :
    appendToFirst (l ++ [m]) cid dta = l ++ [{ m with text := m.text ++ dta }] := by
  induction l with
  | nil => simp [appendToFirst, hm]
  | cons a t ih =>
    have ha : a.mid ≠ some cid := hfresh a (by simp)
    have ha' : (a.mid == some cid) = false := by simpa using ha
    simp [appendToFirst, ha', ih (fun x hx => hfresh x (by simp [hx]))]

/-- A chat list extended with a message carrying the id has the id. -/
theorem chatHasId_append (l : List ChatMsg) (m : ChatMsg) (cid : String)
    (hm : m.mid = some cid) : chatHasId (l ++ [m]) cid = true := by
  simp [chatHasId, hm]

/-- C3 (amended): in the speech-commands tool, every SSE message with
`turn_complete` set resets `currentMessageId` to null and `messageBuffer`
to the empty string; and every `text/plain` message that is not recognised
as a JSON action or a system action message appends its data to
`messageBuffer` and to the text of the current chat message element,
creating a new agent chat element exactly when `currentMessageId` is null —
provided the message ids in play are usable CSS id selectors (the generated
id does not start with a digit; when it does, the element lookup throws and
the chunk reaches only the buffer, see the counterexample). -/
theorem c3_incremental_messages :
    (∀ (msg : SpeechMsg) (newId : String) (doc : List PageElem) (st : SpeechState),
      msg.turn_complete = true →
      handleSSEMessage msg newId doc st =
        { st with currentMessageId := none, messageBuffer := "" }) ∧
    (∀ (msg : SpeechMsg) (newId : String) (doc : List PageElem) (st : SpeechState),
      msg.turn_complete = false → msg.interrupted = false →
      msg.mime_type = some "text/plain" →
      tryParseJSONActions doc
          { st with messageBuffer := st.messageBuffer ++ msg.data } =
        ({ st with messageBuffer := st.messageBuffer ++ msg.data }, false) →
      isDirectJSONAction doc
          { st with messageBuffer := st.messageBuffer ++ msg.data }
          (strTrim msg.data) =
        ({ st with messageBuffer := st.messageBuffer ++ msg.data }, false) →
      isSystemActionMessage (strTrim msg.data) = false →
      validIdSel newId = true →
      (∀ m ∈ st.chat, m.mid ≠ some newId) →
      (∀ cid, st.currentMessageId = some cid →
        validIdSel cid = true ∧ chatHasId st.chat cid = true) →
      (handleSSEMessage msg newId doc st).messageBuffer =
          st.messageBuffer ++ msg.data ∧
      (st.currentMessageId = none →
        (handleSSEMessage msg newId doc st).currentMessageId = some newId ∧
        (handleSSEMessage msg newId doc st).chat =
          st.chat ++ [{ mid := some newId, sender := "agent", text := msg.data }]) ∧
      (∀ cid, st.currentMessageId = some cid →
        (handleSSEMessage msg newId doc st).currentMessageId = some cid ∧
        (handleSSEMessage msg newId doc st).chat =
          appendToFirst st.chat cid msg.data ∧
        (handleSSEMessage msg newId doc st).chat.length = st.chat.length)) := by
  constructor
  · intro msg newId doc st htc
    simp [handleSSEMessage, htc]
  · intro msg newId doc st htc hint hmime htp hdir hsys hvalid hfresh hcidh
    have hnid : newId ≠ "" := validIdSel_ne_empty hvalid
    have haudio : ¬ ((some "text/plain" : Option String) = some "audio/pcm" ∧
        st.audioPlayer = true) := by
      intro hcon
      exact absurd (Option.some.inj hcon.1) (by decide)
    cases hcm : st.currentMessageId with
    | none =>
      have hrun : handleSSEMessage msg newId doc st =
          { st with
              messageBuffer := st.messageBuffer ++ msg.data,
              currentMessageId := some newId,
              chat := st.chat ++
                [{ mid := some newId, sender := "agent", text := "" ++ msg.data }] } := by
        rw [hcm] at htp hdir
        simp only [handleSSEMessage, htc, hint, hmime, Bool.false_eq_true, if_false,
          eq_false haudio, eq_self_iff_true, if_true, htp, hdir, hsys, hcm,
          addChatMessage, hnid, Option.getD, hvalid, Bool.not_true,
          chatHasId_append st.chat { mid := some newId, sender := "agent", text := "" }
            newId rfl,
          appendToFirst_fresh_append st.chat
            { mid := some newId, sender := "agent", text := "" } newId msg.data
            hfresh rfl]
      refine ⟨by rw [hrun], fun _ => ⟨by rw [hrun], ?_⟩, ?_⟩
      · rw [hrun]
        rfl
      · intro cid hcid
        exact Option.noConfusion hcid
    | some cid =>
      obtain ⟨hvc, hhc⟩ := hcidh cid hcm
      have hrun : handleSSEMessage msg newId doc st =
          { st with
              messageBuffer := st.messageBuffer ++ msg.data,
              chat := appendToFirst st.chat cid msg.data } := by
        rw [hcm] at htp hdir
        simp only [handleSSEMessage, htc, hint, hmime, Bool.false_eq_true, if_false,
          eq_false haudio, eq_self_iff_true, if_true, htp, hdir, hsys, hcm,
          Option.getD, hvc, Bool.not_true, hhc, reduceCtorEq]
      refine ⟨by rw [hrun], ?_, ?_⟩
      · intro hnone
        exact Option.noConfusion hnone
      · intro cid2 hcid2
        obtain rfl : cid = cid2 := by injection hcid2
        refine ⟨by rw [hrun]; exact hcm, by rw [hrun], ?_⟩
        rw [hrun]
        exact appendToFirst_length st.chat cid msg.data

/-- Witness for C3 part B at a concrete plain-text chunk. -/
theorem c3_incremental_messages_witness :
    (isSystemActionMessage (strTrim "Hi there.") = false ∧
      validIdSel "abc" = true) ∧
    ((handleSSEMessage
        { turn_complete := false, interrupted := false,
          mime_type := some "text/plain", data := "Hi there." }
        "abc" sampleDoc emptySpeechState).messageBuffer = "Hi there." ∧
      (emptySpeechState.currentMessageId = none →
        (handleSSEMessage
            { turn_complete := false, interrupted := false,
              mime_type := some "text/plain", data := "Hi there." }
            "abc" sampleDoc emptySpeechState).currentMessageId = some "abc" ∧
        (handleSSEMessage
            { turn_complete := false, interrupted := false,
              mime_type := some "text/plain", data := "Hi there." }
            "abc" sampleDoc emptySpeechState).chat =
          emptySpeechState.chat ++
            [{ mid := some "abc", sender := "agent", text := "Hi there." }])) :=
  ⟨⟨by decide, by decide⟩,
   ⟨(c3_incremental_messages.2
      { turn_complete := false, interrupted := false,
        mime_type := some "text/plain", data := "Hi there." }
      "abc" sampleDoc emptySpeechState rfl rfl rfl (by decide) (by decide)
      (by decide) (by decide) (by simp [emptySpeechState])
      (fun cid h => Option.noConfusion h)).1,
    (c3_incremental_messages.2
      { turn_complete := false, interrupted := false,
        mime_type := some "text/plain", data := "Hi there." }
      "abc" sampleDoc emptySpeechState rfl rfl rfl (by decide) (by decide)
      (by decide) (by decide) (by simp [emptySpeechState])
      (fun cid h => Option.noConfusion h)).2.1⟩⟩

/-- C3 counterexample: with the reachable generated id `3abc` (the
`Math.random().toString(36).substring(7)` alphabet includes digit-leading
strings), the chunk is appended to the buffer and a new chat element is
created, but the `querySelector('#3abc')` lookup throws, so the chunk never
reaches the chat message text — the claim as stated fails. -/
theorem c3_counterexample :
    (handleSSEMessage
        { turn_complete := false, interrupted := false,
          mime_type := some "text/plain", data := "Hello." }
        "3abc" [] emptySpeechState).chat =
      [{ mid := some "3abc", sender := "agent", text := "" }] ∧
    (handleSSEMessage
        { turn_complete := false, interrupted := false,
          mime_type := some "text/plain", data := "Hello." }
        "3abc" [] emptySpeechState).messageBuffer = "Hello." ∧
    (handleSSEMessage
        { turn_complete := false, interrupted := false,
          mime_type := some "text/plain", data := "Hello." }
        "3abc" [] emptySpeechState).err = some "SyntaxError: invalid selector" ∧
    (∀ m ∈ (handleSSEMessage
        { turn_complete := false, interrupted := false,
          mime_type := some "text/plain", data := "Hello." }
        "3abc" [] emptySpeechState).chat, m.text ≠ "Hello.") := by
  decide

/-- The tool-id strings used by the state machine are distinct. -/
theorem ts_ne_ai : ("text_simplification" : String) ≠ "ai_alt_text" := by decide

/-- The initial state satisfies the reachability invariant. -/
theorem appInv_init : AppInv initApp := by
  refine ⟨?_, ?_, ?_, ?_, ?_, ?_⟩ <;> intro hx <;> simp [initApp] at hx

/-- Every UI event preserves the reachability invariant. -/
theorem appInv_step (e : AppEv) (s : AppState) (h : AppInv s) :
    AppInv (applyEv e s) := by
  obtain ⟨i1, i2, i3, i4, i5, i6⟩ := h
  unfold AppInv
  cases e <;>
    simp only [applyEv, closeTool, resetCurrentToolState,
      resetTextSimplificationState, resetAIAltTextState] <;>
    (repeat' split) <;>
    refine ⟨?_, ?_, ?_, ?_, ?_, ?_⟩ <;> intro hx <;>
    simp_all [ts_ne_ai, i1, i2, i3, i4, i5, i6]

/-- The invariant holds in every reachable state. -/
theorem appInv_run (evs : List AppEv) : AppInv (runEvents evs) := by
  have main : ∀ (l : List AppEv) (s : AppState), AppInv s →
      AppInv (l.foldl (fun s e => applyEv e s) s) := by
    intro l
    induction l with
    | nil => intro s hs; exact hs
    | cons e t ih =>
      intro s hs
      exact ih (applyEv e s) (appInv_step e s hs)
  exact main evs initApp appInv_init

/-- Closing the tool panel from any state satisfying the invariant leaves
no transient selection state. -/
theorem closeTool_clean (s : AppState) (h : AppInv s) :
    CleanState (closeTool s) := by
  obtain ⟨i1, i2, i3, i4, i5, i6⟩ := h
  unfold CleanState closeTool resetCurrentToolState
    resetTextSimplificationState resetAIAltTextState
  (repeat' split) <;>
    refine ⟨rfl, rfl, rfl, ?_, ?_, ?_, ?_⟩ <;>
    simp_all [ts_ne_ai, i1, i2, i3, i4, i5, i6]

/-- C8: transient DOM-selection state exists only while a tool panel is
open — after `closeTool` from any reachable UI state, both tool-instance
references are cleared, no tool is current, the selection listeners are
detached and all selection highlighting is removed; and the per-tool resets
null the selection and turn off selection mode while detaching listeners
and clearing highlighting. -/
theorem c8_close_resets_selection_state :
    (∀ evs : List AppEv, CleanState (closeTool (runEvents evs))) ∧
    (∀ (s : AppState) (inst : TsInst),
      resetTextSimplificationState { s with tsRef := some inst } =
        { s with
            tsRef := some { selectedText := none, isSelectingMode := false },
            page := { s.page with tsListeners := false, tsHighlight := false } }) ∧
    (∀ (s : AppState) (inst : AiInst),
      resetAIAltTextState { s with aiRef := some inst } =
        { s with
            aiRef := some { selectedImage := none, isSelectingMode := false },
            page := { s.page with aiListeners := false, aiHighlight := false } }) := by
  refine ⟨fun evs => closeTool_clean (runEvents evs) (appInv_run evs), ?_, ?_⟩
  · intro s inst
    rfl
  · intro s inst
    rfl
